import Mathlib

/-!
Verification of the clawono selfie pipeline.

This file embeds the behaviour of the repository's two executable scripts —
scripts/ono-selfie.sh (mode auto-detection, prompt construction, the curl
request flow) and scripts/ono-selfie.ts (generateImage, sendViaOpenClaw,
generateAndSend, main) — as pure Lean functions, and proves properties about
them.  External effects (HTTP responses, the clock, process exit codes of
spawned tools) are supplied through explicit environment records; each
function returns, besides its result, a trace of the effects it performs.
-/

namespace Clawono

/-! ## String helpers shared by the models -/

/-- matchesAt pat cs is true when the character list cs begins with pat
(plain prefix comparison, used to model substring search and startsWith). -/
def matchesAt : List Char → List Char → Bool
  | [], _ => true
  | _ :: _, [] => false
  | p :: ps, c :: cs => p == c && matchesAt ps cs

/-- hasSub pat cs is true when pat occurs contiguously somewhere in cs
(the semantics of grep with a literal pattern, and of String.includes). -/
def hasSub (pat : List Char) : List Char → Bool
  | [] => matchesAt pat []
  | c :: cs => matchesAt pat (c :: cs) || hasSub pat cs

/-- lower-cases a string ASCII-wise, as grep -i does in the C locale. -/
def strToLower (s : String) : String := String.mk (s.data.map Char.toLower)

/-- case-sensitive substring test: does s contain pat? -/
def strHasSub (s pat : String) : Bool := hasSub pat.data s.data

/-- case-insensitive substring test, modelling grep -qiE with a literal
alternation branch: does s contain kw ignoring ASCII case? -/
def containsCI (s kw : String) : Bool :=
  hasSub (strToLower kw).data (strToLower s).data

/-- strStartsWith s pre models JavaScript String.startsWith. -/
def strStartsWith (s pre : String) : Bool := matchesAt pre.data s.data

/-- jsStr models interpolation of a possibly-undefined value into a
JavaScript template literal: undefined prints as the text "undefined". -/
def jsStr : Option String → String
  | none => "undefined"
  | some s => s

/-- jsOrStr models the JavaScript expression v || d for string v:
undefined and the empty string are falsy and select the default. -/
def jsOrStr (v : Option String) (d : String) : String :=
  match v with
  | none => d
  | some s => if s = "" then d else s

/-- jsOrNat models v || d for a numeric v: undefined and 0 are falsy. -/
def jsOrNat (v : Option Nat) (d : Nat) : Nat :=
  match v with
  | none => d
  | some n => if n = 0 then d else n

/-- jsIndexOfChar models String.indexOf for a one-character needle:
the index of the first occurrence, or -1 when absent. -/
def jsIndexOfChar (s : String) (c : Char) : Int :=
  match s.data.findIdx? (· == c) with
  | some i => (i : Int)
  | none => -1

/-- jsSubstring models JavaScript String.substring: negative arguments
clamp to 0, arguments beyond the length clamp to the length, and the two
endpoints are swapped when given in decreasing order. -/
def jsSubstring (s : String) (a b : Int) : String :=
  let n : Int := s.data.length
  let a' := (max 0 (min a n)).toNat
  let b' := (max 0 (min b n)).toNat
  let lo := min a' b'
  let hi := max a' b'
  String.mk ((s.data.drop lo).take (hi - lo))

/-! ## Mode Selector and Prompt Builder (scripts/ono-selfie.sh) -/

/-- mirrorKeywords is the alternation of the first grep in the auto-detect
block of ono-selfie.sh: outfit|wearing|clothes|dress|suit|fashion|full-body|mirror. -/
def mirrorKeywords : List String :=
  ["outfit", "wearing", "clothes", "dress", "suit", "fashion", "full-body", "mirror"]

/-- directKeywords is the alternation of the second grep in the auto-detect
block: cafe|restaurant|beach|park|city|close-up|portrait|face|eyes|smile. -/
def directKeywords : List String :=
  ["cafe", "restaurant", "beach", "park", "city", "close-up", "portrait", "face", "eyes", "smile"]

/-- specMirrorKeywords is the mirror keyword set as the specification words
it (section 4.1): the code's set plus the word reflection.  It is declared
separately from mirrorKeywords so the two can be compared. -/
def specMirrorKeywords : List String :=
  ["outfit", "wearing", "clothes", "dress", "suit", "fashion", "full-body", "mirror", "reflection"]

/-- autoMode is the auto-detect branch of ono-selfie.sh: the mirror grep is
tried first, then the direct grep, and the default is mirror. -/
def autoMode (userContext : String) : String :=
  if mirrorKeywords.any (fun kw => containsCI userContext kw) then "mirror"
  else if directKeywords.any (fun kw => containsCI userContext kw) then "direct"
  else "mirror"

/-- selectMode applies auto-detection only when the mode argument is auto,
as the shell script does. -/
def selectMode (mode : String) (userContext : String) : String :=
  if mode = "auto" then autoMode userContext else mode

/-- BASE_DESCRIPTION from ono-selfie.sh. -/
def BASE_DESCRIPTION : String := "a young woman with long dark hair"

/-- genPrompt is the GEN_PROMPT construction of ono-selfie.sh: one template
for mode direct, the other template for every other mode. -/
def genPrompt (mode : String) (userContext : String) : String :=
  if mode = "direct" then
    "a photorealistic close-up selfie of " ++ BASE_DESCRIPTION ++ " at " ++ userContext ++
      ", direct eye contact with the camera, looking straight into the lens, eyes centered and clearly visible, phone held at arm\x27s length, face fully visible, 8k, highly detailed"
  else
    "a photorealistic mirror selfie of " ++ BASE_DESCRIPTION ++ ", " ++ userContext ++
      ", full body shot, detailed background, 8k, highly detailed"

/-! ## Image Requester (scripts/ono-selfie.ts, generateImage) -/

/-- OnoImageInput mirrors the TypeScript interface of the same name; the
optional fields are Option so that absent (undefined) values are explicit.
output_format is a plain string because main casts an arbitrary argv word
into the field. -/
structure OnoImageInput where
  prompt : String
  num_images : Option Nat
  aspect_ratio : Option String
  output_format : Option String
deriving DecidableEq

/-- Prediction is one entry of the predictions array of the Gemini response;
both fields may be absent. -/
structure Prediction where
  bytesBase64Encoded : Option String
  mimeType : Option String
deriving DecidableEq

/-- GenResponse is the observable part of the fetch response to the
generation endpoint: the ok flag and status line, the raw body text used in
error messages, and the parsed predictions field (none when missing). -/
structure GenResponse where
  ok : Bool
  status : Nat
  statusText : String
  errorText : String
  predictions : Option (List Prediction)
deriving DecidableEq

/-- GenEnv supplies the externals generateImage reads: the GEMINI_API_KEY
environment variable (none when unset) and the response the endpoint would
return. -/
structure GenEnv where
  apiKey : Option String
  response : GenResponse
deriving DecidableEq

/-- GenPayload is the request body generateImage builds: instances holding
the prompt, and the parameters object. -/
structure GenPayload where
  prompt : String
  sampleCount : Nat
  aspectRatio : String
  mimeType : String
deriving DecidableEq

/-- GenRequest is one HTTP POST issued to the generation endpoint. -/
structure GenRequest where
  endpoint : String
  payload : GenPayload
deriving DecidableEq

/-- configErrorMsg is the message generateImage throws when the key is unset. -/
def configErrorMsg : String :=
  "GEMINI_API_KEY environment variable not set. Get your key from https://aistudio.google.com/app/apikey"

/-- requestedMimeType is the expression
input.output_format === \x22png\x22 ? \x22image/png\x22 : \x22image/jpeg\x22
that generateImage evaluates both for the request payload and as the
fallback MIME type of the returned data URL. -/
def requestedMimeType (f : Option String) : String :=
  if f = some "png" then "image/png" else "image/jpeg"

/-- generateImage models the function of the same name in ono-selfie.ts.
It returns the list of HTTP requests it issued (empty or a singleton)
together with the thrown error or the returned data URL. -/
def generateImage (env : GenEnv) (input : OnoImageInput) :
    List GenRequest × Except String String :=
  match env.apiKey with
  | none => ([], .error configErrorMsg)
  | some apiKey =>
    if apiKey = "" then ([], .error configErrorMsg)
    else
      let endpoint :=
        "https://generativelanguage.googleapis.com/v1beta/models/imagen-4.0-fast-generate-001:predict?key="
          ++ apiKey
      let payload : GenPayload :=
        { prompt := input.prompt
          sampleCount := jsOrNat input.num_images 1
          aspectRatio := jsOrStr input.aspect_ratio "1:1"
          mimeType := requestedMimeType input.output_format }
      let req : GenRequest := { endpoint := endpoint, payload := payload }
      if env.response.ok = false then
        ([req], .error ("Image generation failed: " ++ toString env.response.status ++ " "
          ++ env.response.statusText ++ " - " ++ env.response.errorText))
      else
        match env.response.predictions with
        | none => ([req], .error "No predictions returned from Gemini API")
        | some [] => ([req], .error "No predictions returned from Gemini API")
        | some (p :: _) =>
          let base64Image := jsStr p.bytesBase64Encoded
          let mimeType := jsOrStr p.mimeType (requestedMimeType input.output_format)
          ([req], .ok ("data:" ++ mimeType ++ ";base64," ++ base64Image))

/-! ## Channel Dispatcher (scripts/ono-selfie.ts, sendViaOpenClaw) -/

/-- OpenClawMessage mirrors the TypeScript interface: the action field is
always the literal send, so only the remaining fields are kept. -/
structure OpenClawMessage where
  channel : String
  message : String
  media : Option String
deriving DecidableEq

/-- isWordChar is the character class of the regex escape w:
ASCII letters, digits and underscore. -/
def isWordChar (c : Char) : Bool :=
  (('a' ≤ c && c ≤ 'z') || ('A' ≤ c && c ≤ 'Z') || ('0' ≤ c && c ≤ '9') || c == '_')

/-- dropLit lit cs removes the literal lit from the front of cs, or fails. -/
def dropLit : List Char → List Char → Option (List Char)
  | [], cs => some cs
  | _ :: _, [] => none
  | p :: ps, c :: cs => if p = c then dropLit ps cs else none

/-- stripDataUrlPrefix models
mediaContent.replace of the anchored regex data colon image slash w-plus
semicolon base64 comma by the empty string: when the string starts with
that shape the matched head is removed, otherwise the string is unchanged.
(No backtracking subtleties arise: the semicolon after the w-plus group is
not a word character.) -/
def stripDataUrlPrefix (s : String) : String :=
  match dropLit "data:image/".data s.data with
  | none => s
  | some rest =>
    let w := rest.takeWhile isWordChar
    let rest2 := rest.dropWhile isWordChar
    if w = [] then s
    else
      match dropLit ";base64,".data rest2 with
      | none => s
      | some tail => String.mk tail

/-- extFromDataUrl is the expression
mediaContent.substring of indexOf slash plus one up to indexOf semicolon
with which sendViaOpenClaw derives the temp-file extension. -/
def extFromDataUrl (s : String) : String :=
  jsSubstring s (jsIndexOfChar s '/' + 1) (jsIndexOfChar s ';')

/-- tempFileName is the temp path sendViaOpenClaw builds from Date.now()
and the extension taken out of the data URL. -/
def tempFileName (now : Nat) (mediaContent : String) : String :=
  "/tmp/ono-selfie-" ++ toString now ++ "." ++ extFromDataUrl mediaContent

/-- DispatchEnv supplies the externals of sendViaOpenClaw: the two gateway
environment variables, the clock, and the outcomes of the spawned CLI or of
the gateway HTTP call. -/
structure DispatchEnv where
  gatewayUrl : Option String
  gatewayToken : Option String
  now : Nat
  cliOk : Bool
  httpOk : Bool
  httpErrorText : String
deriving DecidableEq

/-- SendAction is the single transport action sendViaOpenClaw performs:
either the spawned openclaw CLI command line, or the HTTP POST with its
URL, optional Authorization header value, message fields and the media
field placed in the JSON body. -/
inductive SendAction where
  | cli (cmd : String)
  | http (url : String) (auth : Option String) (body : OpenClawMessage) (mediaField : Option String)
deriving DecidableEq

/-- isHttpAction recognises the HTTP variant of a SendAction. -/
def isHttpAction : SendAction → Bool
  | .cli _ => false
  | .http _ _ _ _ => true

deriving instance DecidableEq for Except

/-- SendTrace is what one call of sendViaOpenClaw does: the temp files it
writes (path paired with the base64 text written with the base64 encoding
flag), the transport action, and success or the thrown error. -/
structure SendTrace where
  tempWrites : List (String × String)
  action : SendAction
  result : Except String Unit
deriving DecidableEq

/-- sendViaOpenClaw models the function of the same name in ono-selfie.ts:
a media value that starts with data: is first decoded into a temp file
(regardless of the transport in use); the CLI transport then receives the
temp path as its media argument while the HTTP transport sends the original
media value in the request body. -/
def sendViaOpenClaw (message : OpenClawMessage) (useCLI : Bool) (env : DispatchEnv) : SendTrace :=
  let mediaContent := message.media
  let writeArg : List (String × String) × Option String :=
    match mediaContent with
    | some mc =>
      if strStartsWith mc "data:" then
        let base64Data := stripDataUrlPrefix mc
        let tempFile := tempFileName env.now mc
        ([(tempFile, base64Data)], some tempFile)
      else ([], some mc)
    | none => ([], none)
  if useCLI then
    let cmd := "openclaw message send --action send --channel \"" ++ message.channel
      ++ "\" --message \"" ++ message.message ++ "\" --media \"" ++ jsStr writeArg.2 ++ "\""
    { tempWrites := writeArg.1
      action := .cli cmd
      result := if env.cliOk then .ok () else .error "Command failed" }
  else
    let gatewayUrl := jsOrStr env.gatewayUrl "http://localhost:18789"
    let auth : Option String :=
      match env.gatewayToken with
      | none => none
      | some t => if t = "" then none else some ("Bearer " ++ t)
    { tempWrites := writeArg.1
      action := .http (gatewayUrl ++ "/message") auth message mediaContent
      result := if env.httpOk then .ok ()
                else .error ("OpenClaw send failed: " ++ env.httpErrorText) }

/-! ## Pipeline (scripts/ono-selfie.ts, generateAndSend and main) -/

/-- Event is one externally visible step of a pipeline run, in program
order: a generation request going out, generation completing with the data
URL, a temp-file write, and the dispatch to the gateway. -/
inductive Event where
  | genRequest (r : GenRequest)
  | genComplete (url : String)
  | tempWrite (path : String) (data : String)
  | dispatchCli (cmd : String)
  | dispatchHttp (url : String) (media : Option String)
deriving DecidableEq

/-- isDispatch recognises the two dispatch events. -/
def isDispatch : Event → Bool
  | .dispatchCli _ => true
  | .dispatchHttp _ _ => true
  | _ => false

/-- isGenComplete recognises the generation-completed event. -/
def isGenComplete : Event → Bool
  | .genComplete _ => true
  | _ => false

/-- isTempWrite recognises a temp-file write event. -/
def isTempWrite : Event → Bool
  | .tempWrite _ _ => true
  | _ => false

/-- sendEvents lists what one sendViaOpenClaw call does in order: its temp
writes (performed first in the source) followed by its transport action. -/
def sendEvents (st : SendTrace) : List Event :=
  st.tempWrites.map (fun w => Event.tempWrite w.1 w.2) ++
    [match st.action with
     | .cli cmd => Event.dispatchCli cmd
     | .http url _ _ media => Event.dispatchHttp url media]

/-- GenerateAndSendOptions mirrors the TypeScript interface; fields with a
destructuring default are Option, absent meaning undefined. -/
structure GenerateAndSendOptions where
  prompt : String
  channel : String
  caption : Option String
  aspectRatio : Option String
  outputFormat : Option String
  useOpenClawCLI : Option Bool
deriving DecidableEq

/-- ResultRec mirrors the Result interface returned on success. -/
structure ResultRec where
  success : Bool
  imageUrl : Option String
  channel : String
  prompt : String
deriving DecidableEq

/-- PipelineEnv bundles the externals of one generateAndSend run. -/
structure PipelineEnv where
  gen : GenEnv
  dispatch : DispatchEnv
deriving DecidableEq

/-- PipelineTrace records one generateAndSend run: the generation requests
issued, the dispatcher trace when dispatch was reached, the ordered event
list, and the returned Result or thrown error. -/
structure PipelineTrace where
  genRequests : List GenRequest
  send : Option SendTrace
  events : List Event
  result : Except String ResultRec
deriving DecidableEq

/-- pipelineInput is the OnoImageInput value generateAndSend hands to
generateImage, with the destructuring defaults applied. -/
def pipelineInput (options : GenerateAndSendOptions) : OnoImageInput :=
  { prompt := options.prompt
    num_images := some 1
    aspect_ratio := some (options.aspectRatio.getD "1:1")
    output_format := some (options.outputFormat.getD "jpeg") }

/-- generateAndSend models the function of the same name in ono-selfie.ts:
destructuring defaults are applied, generateImage runs first, and only on
its success is sendViaOpenClaw invoked with the data URL as media. -/
def generateAndSend (env : PipelineEnv) (options : GenerateAndSendOptions) : PipelineTrace :=
  let caption := options.caption.getD "Generated with Google Gemini"
  let useCLI := options.useOpenClawCLI.getD true
  let gen := generateImage env.gen (pipelineInput options)
  match gen.2 with
  | .error e =>
    { genRequests := gen.1
      send := none
      events := gen.1.map Event.genRequest
      result := .error e }
  | .ok imageUrl =>
    let st := sendViaOpenClaw
      { channel := options.channel, message := caption, media := some imageUrl }
      useCLI env.dispatch
    { genRequests := gen.1
      send := some st
      events := gen.1.map Event.genRequest ++ Event.genComplete imageUrl :: sendEvents st
      result :=
        match st.result with
        | .error e => .error e
        | .ok _ => .ok { success := true
                         imageUrl := some (jsSubstring imageUrl 0 50 ++ "...")
                         channel := options.channel
                         prompt := options.prompt } }

/-- mainRun models the CLI entry point main of ono-selfie.ts: fewer than
two arguments print usage and exit 1; otherwise the five positional words
are handed to generateAndSend and a thrown error becomes exit code 1. -/
def mainRun (env : PipelineEnv) (args : List String) : Nat × Option PipelineTrace :=
  if args.length < 2 then (1, none)
  else
    let tr := generateAndSend env
      { prompt := args.getD 0 ""
        channel := args.getD 1 ""
        caption := args.get? 2
        aspectRatio := args.get? 3
        outputFormat := args.get? 4
        useOpenClawCLI := none }
    match tr.result with
    | .error _ => (1, some tr)
    | .ok _ => (0, some tr)

/-! ## Shell pipeline (scripts/ono-selfie.sh) -/

/-- shDefault models the shell default expansion with the colon-dash
operator: unset and empty both select the default. -/
def shDefault (a : Option String) (d : String) : String :=
  match a with
  | none => d
  | some s => if s = "" then d else s

/-- ShellEnv supplies the externals of one ono-selfie.sh run: the API key
(empty string when unset, as the dash-z test conflates the two), the raw
curl response text, the output of the jq extraction of
predictions 0 bytesBase64Encoded (the text null when the field is absent),
and the epoch-seconds clock. -/
structure ShellEnv where
  apiKey : String
  responseRaw : String
  jqB64 : String
  now : Nat
deriving DecidableEq

/-- ShellTrace records one ono-selfie.sh run: prompts POSTed by curl, temp
files written by the base64 decode, openclaw send invocations as channel,
caption and media argument, and the exit code. -/
structure ShellTrace where
  curlPrompts : List String
  tempWrites : List (String × String)
  sendCalls : List (String × String × String)
  exitCode : Nat
deriving DecidableEq

/-- shellRun models ono-selfie.sh end to end: the API-key and usage checks,
mode auto-detection, GEN_PROMPT construction, the curl call, the grep for
the word error in the response, the jq extraction check, the temp-file
write and the openclaw send. -/
def shellRun (env : ShellEnv) (userContext channel : String)
    (modeArg captionArg : Option String) : ShellTrace :=
  if env.apiKey = "" then
    { curlPrompts := [], tempWrites := [], sendCalls := [], exitCode := 1 }
  else if userContext = "" ∨ channel = "" then
    { curlPrompts := [], tempWrites := [], sendCalls := [], exitCode := 1 }
  else
    let mode := selectMode (shDefault modeArg "auto") userContext
    let caption := shDefault captionArg "Generated with Google Gemini"
    let prompt := genPrompt mode userContext
    if strHasSub env.responseRaw "error" then
      { curlPrompts := [prompt], tempWrites := [], sendCalls := [], exitCode := 1 }
    else if env.jqB64 = "null" ∨ env.jqB64 = "" then
      { curlPrompts := [prompt], tempWrites := [], sendCalls := [], exitCode := 1 }
    else
      let tempFile := "/tmp/ono-selfie-" ++ toString env.now ++ ".jpeg"
      { curlPrompts := [prompt]
        tempWrites := [(tempFile, env.jqB64)]
        sendCalls := [(channel, caption, tempFile)]
        exitCode := 0 }

/-! ## Base64 (the encoding consumed by fs.writeFileSync with the base64
flag and by the coreutils base64 decode in the shell script) -/

/-- b64Char maps a six-bit value to the ASCII code of its digit in the
standard base64 alphabet of RFC 4648. -/
def b64Char (n : Nat) : Nat :=
  if n < 26 then 65 + n
  else if n < 52 then 71 + n
  else if n < 62 then n - 4
  else if n = 62 then 43
  else 47

/-- b64Val is the inverse digit lookup; 61 is the pad character and every
non-alphabet code yields none. -/
def b64Val (c : Nat) : Option Nat :=
  if 65 ≤ c ∧ c ≤ 90 then some (c - 65)
  else if 97 ≤ c ∧ c ≤ 122 then some (c - 71)
  else if 48 ≤ c ∧ c ≤ 57 then some (c + 4)
  else if c = 43 then some 62
  else if c = 47 then some 63
  else none

/-- b64Encode turns a byte sequence into the ASCII codes of its standard
padded base64 encoding, three bytes to four digits. -/
def b64Encode : List Nat → List Nat
  | [] => []
  | [a] => [b64Char (a / 4), b64Char (a % 4 * 16), 61, 61]
  | [a, b] => [b64Char (a / 4), b64Char (a % 4 * 16 + b / 16), b64Char (b % 16 * 4), 61]
  | a :: b :: c :: rest =>
    b64Char (a / 4) :: b64Char (a % 4 * 16 + b / 16) ::
      b64Char (b % 16 * 4 + c / 64) :: b64Char (c % 64) :: b64Encode rest

/-- b64Decode parses the ASCII codes of a padded base64 string back into
bytes, four digits to three bytes, rejecting malformed input. -/
def b64Decode : List Nat → Option (List Nat)
  | [] => some []
  | c1 :: c2 :: c3 :: c4 :: rest =>
    match b64Val c1, b64Val c2 with
    | some v1, some v2 =>
      if c3 = 61 then
        if c4 = 61 ∧ rest = [] then some [v1 * 4 + v2 / 16] else none
      else
        match b64Val c3 with
        | some v3 =>
          if c4 = 61 then
            if rest = [] then some [v1 * 4 + v2 / 16, v2 % 16 * 16 + v3 / 4] else none
          else
            match b64Val c4 with
            | some v4 =>
              match b64Decode rest with
              | some bs => some ((v1 * 4 + v2 / 16) :: (v2 % 16 * 16 + v3 / 4) ::
                  (v3 % 4 * 64 + v4) :: bs)
              | none => none
            | none => none
        | none => none
    | _, _ => none
  | _ => none

/-- materializeBytes is the decode step of the Image Materializer: the byte
sequence that fs.writeFileSync with the base64 flag (ono-selfie.ts) and
base64 dash-dash-decode (ono-selfie.sh) write to the temp file for a given
base64 text. -/
def materializeBytes (b64 : List Nat) : Option (List Nat) := b64Decode b64

/-- b64Val inverts b64Char on every six-bit value. -/
theorem b64Val_b64Char : ∀ n, n < 64 → b64Val (b64Char n) = some n := by decide

/-- b64Char never produces the pad character. -/
theorem b64Char_ne_pad : ∀ n, n < 64 → b64Char n ≠ 61 := by decide

/-- b64Decode is a left inverse of b64Encode on byte sequences. -/
theorem b64Decode_b64Encode (bs : List Nat) (h : ∀ b ∈ bs, b < 256) :
    b64Decode (b64Encode bs) = some bs := by
  induction bs using b64Encode.induct with
  | case1 => rfl
  | case2 a =>
    have ha : a < 256 := h a (by simp)
    simp only [b64Encode, b64Decode]
    rw [b64Val_b64Char _ (by omega), b64Val_b64Char _ (by omega)]
    simp
    omega
  | case3 a b =>
    have ha : a < 256 := h a (by simp)
    have hb : b < 256 := h b (by simp)
    have h3 : b64Char (b % 16 * 4) ≠ 61 := b64Char_ne_pad _ (by omega)
    simp only [b64Encode, b64Decode]
    rw [b64Val_b64Char _ (by omega), b64Val_b64Char _ (by omega)]
    simp only [if_neg h3]
    rw [b64Val_b64Char _ (by omega)]
    simp
    constructor
    · omega
    · omega
  | case4 a b c rest ih =>
    have ha : a < 256 := h a (by simp)
    have hb : b < 256 := h b (by simp)
    have hc : c < 256 := h c (by simp)
    have hrest : ∀ x ∈ rest, x < 256 := by
      intro x hx
      exact h x (by simp [hx])
    have h3 : b64Char (b % 16 * 4 + c / 64) ≠ 61 := b64Char_ne_pad _ (by omega)
    have h4 : b64Char (c % 64) ≠ 61 := b64Char_ne_pad _ (by omega)
    simp only [b64Encode, b64Decode]
    rw [b64Val_b64Char _ (by omega), b64Val_b64Char _ (by omega)]
    simp only [if_neg h3]
    rw [b64Val_b64Char _ (by omega)]
    simp only [if_neg h4]
    rw [b64Val_b64Char _ (by omega), ih hrest]
    simp
    refine ⟨by omega, by omega, by omega⟩

/-! ## Claims -/

set_option maxRecDepth 8000 in
/-- C1 (counterexample): the Prompt Builder of ono-selfie.sh does not emit
the templates the claim quotes.  At context a cozy cafe with warm lighting
in mode direct, and at context wearing a santa hat in mode mirror, the
built prompts differ from the claimed literal outputs. -/
theorem c1_counterexample :
    genPrompt "direct" "a cozy cafe with warm lighting" ≠
      "a close-up selfie taken by herself at a cozy cafe with warm lighting, direct eye contact with the camera, looking straight into the lens, eyes centered and clearly visible, not a mirror selfie, phone held at arm\x27s length, face fully visible" ∧
    genPrompt "mirror" "wearing a santa hat" ≠
      "make a pic of this person, but wearing a santa hat. the person is taking a mirror selfie" := by
  constructor
  · intro hc
    have h2 := congrArg (fun s => s.data.take 4) hc
    simp [genPrompt, BASE_DESCRIPTION] at h2
  · intro hc
    have h2 := congrArg (fun s => s.data.take 4) hc
    simp [genPrompt, BASE_DESCRIPTION] at h2

/-- C1 (amended): for every user context, the Prompt Builder of
ono-selfie.sh outputs in mode direct the template
a photorealistic close-up selfie of a young woman with long dark hair at
the context followed by the fixed direct-framing suffix, and in mode mirror
the template a photorealistic mirror selfie of a young woman with long dark
hair, the context, followed by the fixed full-body suffix. -/
theorem c1_prompt_builder_templates (ctx : String) :
    genPrompt "direct" ctx =
      "a photorealistic close-up selfie of a young woman with long dark hair at " ++ ctx ++
        ", direct eye contact with the camera, looking straight into the lens, eyes centered and clearly visible, phone held at arm\x27s length, face fully visible, 8k, highly detailed" ∧
    genPrompt "mirror" ctx =
      "a photorealistic mirror selfie of a young woman with long dark hair, " ++ ctx ++
        ", full body shot, detailed background, 8k, highly detailed" := by
  constructor
  · show ("a photorealistic close-up selfie of " ++ BASE_DESCRIPTION ++ " at " ++ ctx ++ _ : String) = _
    rw [show ("a photorealistic close-up selfie of " ++ BASE_DESCRIPTION ++ " at " : String) =
      "a photorealistic close-up selfie of a young woman with long dark hair at " from rfl]
  · show ("a photorealistic mirror selfie of " ++ BASE_DESCRIPTION ++ ", " ++ ctx ++ _ : String) = _
    rw [show ("a photorealistic mirror selfie of " ++ BASE_DESCRIPTION ++ ", " : String) =
      "a photorealistic mirror selfie of a young woman with long dark hair, " from rfl]

/-- C2 (counterexample): the context reflection at a cafe contains the word
reflection of the claimed mirror set and the word cafe of the direct set,
yet auto-detection returns direct, because the grep alternation in
ono-selfie.sh omits reflection from the mirror keywords. -/
theorem c2_counterexample :
    "reflection" ∈ specMirrorKeywords ∧
    containsCI "reflection at a cafe" "reflection" = true ∧
    "cafe" ∈ directKeywords ∧
    containsCI "reflection at a cafe" "cafe" = true ∧
    autoMode "reflection at a cafe" = "direct" ∧
    autoMode "reflection at a cafe" ≠ "mirror" := by decide

/-- C2 (amended): for every context containing, case-insensitively, a
keyword of the mirror set actually checked by the code (outfit, wearing,
clothes, dress, suit, fashion, full-body, mirror — without reflection) and
a keyword of the direct set, auto-detection returns mirror because the
mirror grep runs first; and for every context containing a keyword of
neither claimed set it returns mirror by default. -/
theorem c2_mode_tiebreak_and_default (s : String) :
    ((∃ kw ∈ mirrorKeywords, containsCI s kw = true) ∧
        (∃ kw ∈ directKeywords, containsCI s kw = true) →
      autoMode s = "mirror") ∧
    ((∀ kw ∈ specMirrorKeywords, containsCI s kw = false) ∧
        (∀ kw ∈ directKeywords, containsCI s kw = false) →
      autoMode s = "mirror") := by
  constructor
  · rintro ⟨⟨kw, hkw, hc⟩, -⟩
    have h1 : mirrorKeywords.any (fun kw => containsCI s kw) = true :=
      List.any_eq_true.mpr ⟨kw, hkw, hc⟩
    simp [autoMode, h1]
  · rintro ⟨hm, hd⟩
    have h1 : mirrorKeywords.any (fun kw => containsCI s kw) = false := by
      rw [List.any_eq_false]
      intro kw hkw
      have hsub : kw ∈ specMirrorKeywords := by
        rw [show specMirrorKeywords = mirrorKeywords ++ ["reflection"] from rfl]
        exact List.mem_append_left _ hkw
      simp [hm kw hsub]
    have h2 : directKeywords.any (fun kw => containsCI s kw) = false := by
      rw [List.any_eq_false]
      intro kw hkw
      simp [hd kw hkw]
    simp [autoMode, h1, h2]

/-- C2 (witness): wearing a hat at a cafe matches both keyword sets and
resolves to mirror; hello there matches neither and defaults to mirror. -/
theorem c2_mode_tiebreak_and_default_witness :
    ((∃ kw ∈ mirrorKeywords, containsCI "wearing a hat at a cafe" kw = true) ∧
      (∃ kw ∈ directKeywords, containsCI "wearing a hat at a cafe" kw = true)) ∧
    autoMode "wearing a hat at a cafe" = "mirror" ∧
    ((∀ kw ∈ specMirrorKeywords, containsCI "hello there" kw = false) ∧
      (∀ kw ∈ directKeywords, containsCI "hello there" kw = false)) ∧
    autoMode "hello there" = "mirror" :=
  ⟨by decide, (c2_mode_tiebreak_and_default _).1 (by decide), by decide,
    (c2_mode_tiebreak_and_default _).2 (by decide)⟩

/-- C3: for every context containing, case-insensitively, a keyword of the
claimed mirror set (reflection included) and none of the direct set,
auto-detection returns mirror (either the mirror grep matches, or nothing
matches and the default is mirror); and for every context containing a
direct keyword and no claimed mirror keyword it returns direct. -/
theorem c3_mode_selector (s : String) :
    ((∃ kw ∈ specMirrorKeywords, containsCI s kw = true) ∧
        (∀ kw ∈ directKeywords, containsCI s kw = false) →
      autoMode s = "mirror") ∧
    ((∃ kw ∈ directKeywords, containsCI s kw = true) ∧
        (∀ kw ∈ specMirrorKeywords, containsCI s kw = false) →
      autoMode s = "direct") := by
  constructor
  · rintro ⟨-, hd⟩
    have h2 : directKeywords.any (fun kw => containsCI s kw) = false := by
      rw [List.any_eq_false]
      intro kw hkw
      simp [hd kw hkw]
    by_cases h1 : mirrorKeywords.any (fun kw => containsCI s kw) = true
    · simp [autoMode, h1]
    · simp [autoMode, h1, h2]
  · rintro ⟨⟨kw, hkw, hc⟩, hm⟩
    have h1 : mirrorKeywords.any (fun kw => containsCI s kw) = false := by
      rw [List.any_eq_false]
      intro kw2 hkw2
      have hsub : kw2 ∈ specMirrorKeywords := by
        rw [show specMirrorKeywords = mirrorKeywords ++ ["reflection"] from rfl]
        exact List.mem_append_left _ hkw2
      simp [hm kw2 hsub]
    have h2 : directKeywords.any (fun kw => containsCI s kw) = true :=
      List.any_eq_true.mpr ⟨kw, hkw, hc⟩
    simp [autoMode, h1, h2]

/-- C3 (witness): the context reflection holds a claimed mirror keyword and
no direct keyword and yields mirror; the context at a cafe holds a direct
keyword and no mirror keyword and yields direct. -/
theorem c3_mode_selector_witness :
    ((∃ kw ∈ specMirrorKeywords, containsCI "reflection" kw = true) ∧
      (∀ kw ∈ directKeywords, containsCI "reflection" kw = false)) ∧
    autoMode "reflection" = "mirror" ∧
    ((∃ kw ∈ directKeywords, containsCI "at a cafe" kw = true) ∧
      (∀ kw ∈ specMirrorKeywords, containsCI "at a cafe" kw = false)) ∧
    autoMode "at a cafe" = "direct" :=
  ⟨by decide, (c3_mode_selector _).1 (by decide), by decide,
    (c3_mode_selector _).2 (by decide)⟩

/-- sampleOkResponse is a well-formed generation response used by witnesses. -/
def sampleOkResponse : GenResponse :=
  { ok := true, status := 200, statusText := "OK", errorText := "",
    predictions := some [{ bytesBase64Encoded := some "QUJD", mimeType := none }] }

/-- sampleDispatchEnv is a benign dispatcher environment used by witnesses. -/
def sampleDispatchEnv : DispatchEnv :=
  { gatewayUrl := none, gatewayToken := none, now := 0,
    cliOk := true, httpOk := true, httpErrorText := "" }

/-- sampleOpts is a minimal options record used by witnesses. -/
def sampleOpts : GenerateAndSendOptions :=
  { prompt := "p", channel := "#g", caption := none, aspectRatio := none,
    outputFormat := none, useOpenClawCLI := none }

/-- when generateImage throws, generateAndSend stops with that error, never
reaches sendViaOpenClaw, and its only events are the generation requests. -/
theorem generateAndSend_genError (env : PipelineEnv) (opts : GenerateAndSendOptions)
    (e : String) (h : (generateImage env.gen (pipelineInput opts)).2 = .error e) :
    generateAndSend env opts =
      { genRequests := (generateImage env.gen (pipelineInput opts)).1
        send := none
        events := (generateImage env.gen (pipelineInput opts)).1.map Event.genRequest
        result := .error e } := by
  simp only [generateAndSend, h]

/-- with the API key unset, generateImage issues no request and throws the
configuration error. -/
theorem generateImage_noKey (env : GenEnv) (input : OnoImageInput)
    (h : env.apiKey = none) :
    generateImage env input = ([], .error configErrorMsg) := by
  simp [generateImage, h]

/-- with the API key unset, generateAndSend does nothing but throw the
configuration error. -/
theorem generateAndSend_noKey (env : PipelineEnv) (opts : GenerateAndSendOptions)
    (h : env.gen.apiKey = none) :
    generateAndSend env opts =
      { genRequests := [], send := none, events := [], result := .error configErrorMsg } := by
  have hg := generateImage_noKey env.gen (pipelineInput opts) h
  rw [generateAndSend_genError env opts configErrorMsg (by rw [hg])]
  rw [hg]
  rfl

/-- with a missing or empty predictions list, generateImage throws. -/
theorem generateImage_badPredictions (env : GenEnv) (input : OnoImageInput)
    (h : env.response.predictions = none ∨ env.response.predictions = some []) :
    ∃ e, (generateImage env input).2 = .error e := by
  rcases henv : env.apiKey with _ | key
  · exact ⟨configErrorMsg, by simp [generateImage, henv]⟩
  · by_cases hk : key = ""
    · exact ⟨configErrorMsg, by simp [generateImage, henv, hk]⟩
    · by_cases hok : env.response.ok = false
      · exact ⟨"Image generation failed: " ++ toString env.response.status ++ " "
          ++ env.response.statusText ++ " - " ++ env.response.errorText,
          by simp [generateImage, henv, hk, hok]⟩
      · rcases h with h | h
        · exact ⟨"No predictions returned from Gemini API",
            by simp [generateImage, henv, hk, hok, h]⟩
        · exact ⟨"No predictions returned from Gemini API",
            by simp [generateImage, henv, hk, hok, h]⟩

/-- C4 (code bug): on a response whose first prediction entry carries no
bytesBase64Encoded field (or an empty one), the TypeScript generateImage
does not fail: it returns a media reference built from the missing payload
— the text undefined, or nothing, interpolated into the data URL.  The
shell script, given the matching jq output null, does fail with exit
code 1 before writing any temp file, which is the specified behaviour. -/
theorem c4_missing_payload_not_rejected :
    (generateImage (GenEnv.mk (some "k") (GenResponse.mk true 200 "OK" "" (some [Prediction.mk none none]))) (OnoImageInput.mk "p" none none none)).2
      = Except.ok "data:image/jpeg;base64,undefined" ∧
    (generateImage (GenEnv.mk (some "k") (GenResponse.mk true 200 "OK" "" (some [Prediction.mk (some "") none]))) (OnoImageInput.mk "p" none none none)).2
      = Except.ok "data:image/jpeg;base64," ∧
    (shellRun { apiKey := "k", responseRaw := "resp", jqB64 := "null", now := 0 }
        "ctx" "#general" none none).exitCode = 1 ∧
    (shellRun { apiKey := "k", responseRaw := "resp", jqB64 := "null", now := 0 }
        "ctx" "#general" none none).tempWrites = [] := by decide

/-- C6: with GEMINI_API_KEY absent, both scripts fail with the
configuration error and exit non-zero without issuing any generation
request: the TypeScript pipeline issues no request, reaches no dispatch,
throws the configuration message and main exits 1, and the shell script
exits 1 having run no curl. -/
theorem c6_no_request_without_key (env : PipelineEnv) (opts : GenerateAndSendOptions)
    (args : List String) (shEnv : ShellEnv) (uc ch : String) (mA cA : Option String)
    (hts : env.gen.apiKey = none) (hsh : shEnv.apiKey = "") :
    (generateAndSend env opts).genRequests = [] ∧
    (generateAndSend env opts).send = none ∧
    (generateAndSend env opts).result = .error configErrorMsg ∧
    (mainRun env args).1 = 1 ∧
    (shellRun shEnv uc ch mA cA).curlPrompts = [] ∧
    (shellRun shEnv uc ch mA cA).exitCode = 1 := by
  have hpipe : ∀ o : GenerateAndSendOptions, generateAndSend env o =
      { genRequests := [], send := none, events := [], result := .error configErrorMsg } :=
    fun o => generateAndSend_noKey env o hts
  refine ⟨by rw [hpipe opts], by rw [hpipe opts], by rw [hpipe opts], ?_, ?_, ?_⟩
  · by_cases hlen : args.length < 2
    · simp [mainRun, hlen]
    · simp only [mainRun, if_neg hlen]
      rw [hpipe]
  · simp [shellRun, hsh]
  · simp [shellRun, hsh]

/-- C6 (witness): a concrete keyless environment makes both script models
fail with exit 1 and no generation request. -/
theorem c6_no_request_without_key_witness :
    (PipelineEnv.mk (GenEnv.mk none sampleOkResponse) sampleDispatchEnv).gen.apiKey = none ∧
    (ShellEnv.mk "" "resp" "QUJD" 0).apiKey = "" ∧
    ((generateAndSend (PipelineEnv.mk (GenEnv.mk none sampleOkResponse) sampleDispatchEnv) sampleOpts).genRequests = [] ∧
      (generateAndSend (PipelineEnv.mk (GenEnv.mk none sampleOkResponse) sampleDispatchEnv) sampleOpts).send = none ∧
      (generateAndSend (PipelineEnv.mk (GenEnv.mk none sampleOkResponse) sampleDispatchEnv) sampleOpts).result = .error configErrorMsg ∧
      (mainRun (PipelineEnv.mk (GenEnv.mk none sampleOkResponse) sampleDispatchEnv) ["p", "#g"]).1 = 1 ∧
      (shellRun (ShellEnv.mk "" "resp" "QUJD" 0) "ctx" "#g" none none).curlPrompts = [] ∧
      (shellRun (ShellEnv.mk "" "resp" "QUJD" 0) "ctx" "#g" none none).exitCode = 1) :=
  ⟨rfl, rfl,
    c6_no_request_without_key (PipelineEnv.mk (GenEnv.mk none sampleOkResponse) sampleDispatchEnv) sampleOpts ["p", "#g"] (ShellEnv.mk "" "resp" "QUJD" 0)
      "ctx" "#g" none none rfl rfl⟩

/-- C7: when the generation response has a missing or empty predictions
list, the pipeline fails with an error, dispatch is never reached, and no
temp-file write occurs anywhere in the run. -/
theorem c7_empty_predictions (env : PipelineEnv) (opts : GenerateAndSendOptions)
    (h : env.gen.response.predictions = none ∨ env.gen.response.predictions = some []) :
    (∃ e, (generateAndSend env opts).result = Except.error e) ∧
    (generateAndSend env opts).send = none ∧
    ∀ ev ∈ (generateAndSend env opts).events, isTempWrite ev = false := by
  obtain ⟨e, he⟩ := generateImage_badPredictions env.gen (pipelineInput opts) h
  rw [generateAndSend_genError env opts e he]
  refine ⟨⟨e, rfl⟩, rfl, ?_⟩
  intro ev hev
  simp only [List.mem_map] at hev
  obtain ⟨r, -, rfl⟩ := hev
  rfl

/-- C7 (witness): a concrete response with an empty predictions array makes
the pipeline error out with no dispatch and no temp write. -/
theorem c7_empty_predictions_witness :
    ((PipelineEnv.mk (GenEnv.mk (some "k") (GenResponse.mk true 200 "OK" "" (some []))) sampleDispatchEnv).gen.response.predictions = none ∨
      (PipelineEnv.mk (GenEnv.mk (some "k") (GenResponse.mk true 200 "OK" "" (some []))) sampleDispatchEnv).gen.response.predictions = some []) ∧
    ((∃ e, (generateAndSend (PipelineEnv.mk (GenEnv.mk (some "k") (GenResponse.mk true 200 "OK" "" (some []))) sampleDispatchEnv) sampleOpts).result = Except.error e) ∧
      (generateAndSend (PipelineEnv.mk (GenEnv.mk (some "k") (GenResponse.mk true 200 "OK" "" (some []))) sampleDispatchEnv) sampleOpts).send = none ∧
      ∀ ev ∈ (generateAndSend (PipelineEnv.mk (GenEnv.mk (some "k") (GenResponse.mk true 200 "OK" "" (some []))) sampleDispatchEnv) sampleOpts).events, isTempWrite ev = false) :=
  ⟨Or.inr rfl,
    c7_empty_predictions (PipelineEnv.mk (GenEnv.mk (some "k") (GenResponse.mk true 200 "OK" "" (some []))) sampleDispatchEnv) sampleOpts (Or.inr rfl)⟩

/-- every request generateImage issues carries the MIME type computed by
requestedMimeType from the input's output_format. -/
theorem mem_generateImage_requests {env : GenEnv} {input : OnoImageInput} {r : GenRequest}
    (hr : r ∈ (generateImage env input).1) :
    r.payload.mimeType = requestedMimeType input.output_format := by
  unfold generateImage at hr
  split at hr
  · simp at hr
  · split at hr
    · simp at hr
    · split at hr
      · simp at hr
        rw [hr]
      · split at hr <;> simp at hr <;> rw [hr]

/-- C10: unless output_format is exactly the string png, every request the
Image Requester issues asks for image/jpeg, and when the first prediction
carries no MIME type (absent or empty) the returned data URL falls back to
image/jpeg; a request for image/png is issued only when output_format
equals png. -/
theorem c10_mime_default (env : GenEnv) (input : OnoImageInput) :
    (input.output_format ≠ some "png" →
      requestedMimeType input.output_format = "image/jpeg" ∧
      (∀ r ∈ (generateImage env input).1, r.payload.mimeType = "image/jpeg") ∧
      (∀ p rest, env.response.predictions = some (p :: rest) →
        (p.mimeType = none ∨ p.mimeType = some "") →
        ∀ url, (generateImage env input).2 = Except.ok url →
          url = "data:image/jpeg;base64," ++ jsStr p.bytesBase64Encoded)) ∧
    (∀ r ∈ (generateImage env input).1,
      r.payload.mimeType = "image/png" → input.output_format = some "png") := by
  constructor
  · intro hf
    have hmime : requestedMimeType input.output_format = "image/jpeg" := by
      simp [requestedMimeType, hf]
    refine ⟨hmime, ?_, ?_⟩
    · intro r hr
      rw [mem_generateImage_requests hr, hmime]
    · intro p rest hpred hpm url hok
      rcases henv : env.apiKey with _ | key
      · simp [generateImage, henv] at hok
      · by_cases hk : key = ""
        · simp [generateImage, henv, hk] at hok
        · by_cases hresp : env.response.ok = false
          · simp [generateImage, henv, hk, hresp] at hok
          · have hok2 : env.response.ok = true := by
              revert hresp
              cases env.response.ok <;> simp
            have hfallback : jsOrStr p.mimeType (requestedMimeType input.output_format)
                = "image/jpeg" := by
              rcases hpm with hpm | hpm <;> simp [jsOrStr, hpm, hmime]
            simp [generateImage, henv, hk, hok2, hpred, hfallback] at hok
            rw [← hok]
  · intro r hr hpng
    by_cases hp : input.output_format = some "png"
    · exact hp
    · rw [mem_generateImage_requests hr] at hpng
      simp [requestedMimeType, hp] at hpng

/-- C10 (witness): with output_format jpeg and a first prediction carrying
no MIME type, the issued request asks for image/jpeg and the returned data
URL defaults to image/jpeg. -/
theorem c10_mime_default_witness :
    ((OnoImageInput.mk "p" none none (some "jpeg")).output_format ≠ some "png") ∧
    (requestedMimeType (OnoImageInput.mk "p" none none (some "jpeg")).output_format
        = "image/jpeg" ∧
      (∀ r ∈ (generateImage (GenEnv.mk (some "k") sampleOkResponse)
          (OnoImageInput.mk "p" none none (some "jpeg"))).1,
        r.payload.mimeType = "image/jpeg") ∧
      (∀ p rest, (GenEnv.mk (some "k") sampleOkResponse).response.predictions
          = some (p :: rest) →
        (p.mimeType = none ∨ p.mimeType = some "") →
        ∀ url, (generateImage (GenEnv.mk (some "k") sampleOkResponse)
            (OnoImageInput.mk "p" none none (some "jpeg"))).2 = Except.ok url →
          url = "data:image/jpeg;base64," ++ jsStr p.bytesBase64Encoded)) :=
  ⟨by decide,
    (c10_mime_default (GenEnv.mk (some "k") sampleOkResponse)
      (OnoImageInput.mk "p" none none (some "jpeg"))).1 (by decide)⟩

/-- matchesAt accepts a list against itself extended by anything. -/
theorem matchesAt_self_append (p q : List Char) : matchesAt p (p ++ q) = true := by
  induction p with
  | nil => rfl
  | cons c cs ih => simp [matchesAt, ih]

/-- every data URL assembled by generateImage starts with the text data:. -/
theorem strStartsWith_dataUrl (m t b : String) :
    strStartsWith ("data:" ++ m ++ t ++ b) "data:" = true := by
  unfold strStartsWith
  have hdata : ("data:" ++ m ++ t ++ b).data
      = "data:".data ++ (m.data ++ (t.data ++ b.data)) := by
    simp [String.data_append, List.append_assoc]
  rw [hdata]
  exact matchesAt_self_append _ _

/-- when generateImage returns a data URL, it issued exactly one request
and the returned reference starts with the text data:. -/
theorem generateImage_ok {env : GenEnv} {input : OnoImageInput} {u : String}
    (h : (generateImage env input).2 = .ok u) :
    (∃ r, (generateImage env input).1 = [r]) ∧ strStartsWith u "data:" = true := by
  rcases henv : env.apiKey with _ | key
  · simp [generateImage, henv] at h
  · by_cases hk : key = ""
    · simp [generateImage, henv, hk] at h
    · by_cases hok : env.response.ok = false
      · simp [generateImage, henv, hk, hok] at h
      · have hok2 : env.response.ok = true := by
          revert hok
          cases env.response.ok <;> simp
        rcases hpred : env.response.predictions with _ | pl
        · simp [generateImage, henv, hk, hok2, hpred] at h
        · rcases pl with _ | ⟨p, rest⟩
          · simp [generateImage, henv, hk, hok2, hpred] at h
          · refine ⟨⟨GenRequest.mk
                ("https://generativelanguage.googleapis.com/v1beta/models/imagen-4.0-fast-generate-001:predict?key="
                  ++ key)
                (GenPayload.mk input.prompt (jsOrNat input.num_images 1)
                  (jsOrStr input.aspect_ratio "1:1") (requestedMimeType input.output_format)),
              by simp [generateImage, henv, hk, hok2, hpred]⟩, ?_⟩
            have hu : (Except.ok ("data:" ++ jsOrStr p.mimeType (requestedMimeType input.output_format)
                ++ ";base64," ++ jsStr p.bytesBase64Encoded) : Except String String) = Except.ok u := by
              rw [← h]
              simp [generateImage, henv, hk, hok2, hpred]
            injection hu with hu2
            rw [← hu2]
            exact strStartsWith_dataUrl _ _ _

/-- nullEvent is the default handed to positional lookups into event lists;
it is none of a dispatch, a generation completion or a temp write. -/
def nullEvent : Event := Event.genRequest (GenRequest.mk "" (GenPayload.mk "" 0 "" ""))

/-- a list of generation-request events holds no dispatch at any position. -/
theorem isDispatch_map_genRequest (l : List GenRequest) (i : Nat) :
    isDispatch ((l.map Event.genRequest).getD i nullEvent) = false := by
  by_cases hlt : i < (l.map Event.genRequest).length
  · rw [List.getD_eq_getElem _ _ hlt]
    simp [isDispatch]
  · rw [List.getD_eq_default _ _ (Nat.le_of_not_lt hlt)]
    rfl

/-- generateAndSend after a successful generation: the dispatcher is called
with the data URL as media, and the events are the generation requests,
then the completion, then the dispatcher's own events. -/
theorem generateAndSend_genOk (env : PipelineEnv) (opts : GenerateAndSendOptions)
    (imageUrl : String)
    (h : (generateImage env.gen (pipelineInput opts)).2 = .ok imageUrl) :
    generateAndSend env opts =
      { genRequests := (generateImage env.gen (pipelineInput opts)).1
        send := some (sendViaOpenClaw
          (OpenClawMessage.mk opts.channel (opts.caption.getD "Generated with Google Gemini")
            (some imageUrl)) (opts.useOpenClawCLI.getD true) env.dispatch)
        events := (generateImage env.gen (pipelineInput opts)).1.map Event.genRequest
          ++ Event.genComplete imageUrl :: sendEvents (sendViaOpenClaw
            (OpenClawMessage.mk opts.channel (opts.caption.getD "Generated with Google Gemini")
              (some imageUrl)) (opts.useOpenClawCLI.getD true) env.dispatch)
        result :=
          match (sendViaOpenClaw
              (OpenClawMessage.mk opts.channel (opts.caption.getD "Generated with Google Gemini")
                (some imageUrl)) (opts.useOpenClawCLI.getD true) env.dispatch).result with
          | .error e => .error e
          | .ok _ => .ok { success := true
                           imageUrl := some (jsSubstring imageUrl 0 50 ++ "...")
                           channel := opts.channel
                           prompt := opts.prompt } } := by
  simp only [generateAndSend, h]

/-- a dispatcher call whose media is a data URL: the trace always records
exactly one temp write of the stripped base64 payload, its transport action
is a dispatch and not a temp write, and the event list is the write
followed by the dispatch. -/
theorem sendEvents_dataUrl (msg : OpenClawMessage) (useCLI : Bool) (env : DispatchEnv)
    (m : String) (hm : msg.media = some m) (hd : strStartsWith m "data:" = true) :
    (sendViaOpenClaw msg useCLI env).tempWrites
        = [(tempFileName env.now m, stripDataUrlPrefix m)] ∧
    ∃ dEv, isDispatch dEv = true ∧ isTempWrite dEv = false ∧ isGenComplete dEv = false ∧
      sendEvents (sendViaOpenClaw msg useCLI env)
        = [Event.tempWrite (tempFileName env.now m) (stripDataUrlPrefix m), dEv] := by
  cases useCLI with
  | true =>
    refine ⟨by simp [sendViaOpenClaw, hm, hd], ?_⟩
    exact ⟨Event.dispatchCli ("openclaw message send --action send --channel \"" ++ msg.channel
        ++ "\" --message \"" ++ msg.message ++ "\" --media \"" ++ tempFileName env.now m ++ "\""),
      rfl, rfl, rfl, by simp [sendEvents, sendViaOpenClaw, hm, hd, jsStr]⟩
  | false =>
    refine ⟨by simp [sendViaOpenClaw, hm, hd], ?_⟩
    exact ⟨Event.dispatchHttp (jsOrStr env.gatewayUrl "http://localhost:18789" ++ "/message")
        (some m),
      rfl, rfl, rfl, by simp [sendEvents, sendViaOpenClaw, hm, hd]⟩

/-- C8: in every pipeline run, any dispatch event is strictly preceded by
the generation-completed event, and every temp-file write of the run also
happens strictly before the dispatch: an image is never handed to the
gateway before generation has finished and its bytes are materialized. -/
theorem c8_dispatch_after_generation (env : PipelineEnv) (opts : GenerateAndSendOptions)
    (i : Nat) (hi : i < (generateAndSend env opts).events.length)
    (hdisp : isDispatch ((generateAndSend env opts).events.getD i nullEvent) = true) :
    (∃ j, j < (generateAndSend env opts).events.length ∧ j < i ∧
      isGenComplete ((generateAndSend env opts).events.getD j nullEvent) = true) ∧
    (∀ k, k < (generateAndSend env opts).events.length →
      isTempWrite ((generateAndSend env opts).events.getD k nullEvent) = true → k < i) := by
  rcases hres : (generateImage env.gen (pipelineInput opts)).2 with e | imageUrl
  · rw [generateAndSend_genError env opts e hres] at hdisp
    rw [isDispatch_map_genRequest] at hdisp
    exact absurd hdisp (by simp)
  · obtain ⟨⟨r, hr⟩, hpre⟩ := generateImage_ok hres
    obtain ⟨hw, dEv, hdEv, htw2, hgc2, hse⟩ := sendEvents_dataUrl
      (OpenClawMessage.mk opts.channel (opts.caption.getD "Generated with Google Gemini")
        (some imageUrl))
      (opts.useOpenClawCLI.getD true) env.dispatch imageUrl rfl hpre
    have hev : (generateAndSend env opts).events =
        [Event.genRequest r, Event.genComplete imageUrl,
          Event.tempWrite (tempFileName env.dispatch.now imageUrl)
            (stripDataUrlPrefix imageUrl), dEv] := by
      rw [generateAndSend_genOk env opts imageUrl hres]
      simp [hr, hse]
    rw [hev] at hi hdisp ⊢
    simp only [List.length_cons, List.length_nil] at hi
    interval_cases i
    · simp [List.getD, isDispatch] at hdisp
    · simp [List.getD, isDispatch] at hdisp
    · simp [List.getD, isDispatch] at hdisp
    · refine ⟨⟨1, by simp, by omega, rfl⟩, ?_⟩
      intro k hk htw
      simp only [List.length_cons, List.length_nil] at hk
      interval_cases k
      · omega
      · omega
      · omega
      · rw [show ([Event.genRequest r, Event.genComplete imageUrl,
            Event.tempWrite (tempFileName env.dispatch.now imageUrl)
              (stripDataUrlPrefix imageUrl), dEv].getD 3 nullEvent) = dEv from rfl] at htw
        rw [htw2] at htw
        exact absurd htw (by simp)

/-- C8 (witness): a concrete successful run has its dispatch event at
position 3, after the completion at position 1 and the temp write at
position 2. -/
theorem c8_dispatch_after_generation_witness :
    3 < (generateAndSend (PipelineEnv.mk (GenEnv.mk (some "k") sampleOkResponse)
        sampleDispatchEnv) sampleOpts).events.length ∧
    isDispatch ((generateAndSend (PipelineEnv.mk (GenEnv.mk (some "k") sampleOkResponse)
        sampleDispatchEnv) sampleOpts).events.getD 3 nullEvent) = true ∧
    ((∃ j, j < (generateAndSend (PipelineEnv.mk (GenEnv.mk (some "k") sampleOkResponse)
          sampleDispatchEnv) sampleOpts).events.length ∧ j < 3 ∧
        isGenComplete ((generateAndSend (PipelineEnv.mk (GenEnv.mk (some "k") sampleOkResponse)
          sampleDispatchEnv) sampleOpts).events.getD j nullEvent) = true) ∧
      (∀ k, k < (generateAndSend (PipelineEnv.mk (GenEnv.mk (some "k") sampleOkResponse)
          sampleDispatchEnv) sampleOpts).events.length →
        isTempWrite ((generateAndSend (PipelineEnv.mk (GenEnv.mk (some "k") sampleOkResponse)
          sampleDispatchEnv) sampleOpts).events.getD k nullEvent) = true → k < 3)) :=
  ⟨by decide, by decide,
    c8_dispatch_after_generation (PipelineEnv.mk (GenEnv.mk (some "k") sampleOkResponse)
      sampleDispatchEnv) sampleOpts 3 (by decide) (by decide)⟩

/-- C5 (counterexample): with the HTTP transport selected (useCLI false)
and a data-URL media, the dispatcher still decodes and writes the temp
file, so the decode-and-write does not happen only when a file-path
argument is required. -/
theorem c5_counterexample :
    (sendViaOpenClaw (OpenClawMessage.mk "#general" "hi" (some "data:image/jpeg;base64,QUJD"))
        false sampleDispatchEnv).tempWrites ≠ [] ∧
    isHttpAction (sendViaOpenClaw (OpenClawMessage.mk "#general" "hi"
        (some "data:image/jpeg;base64,QUJD")) false sampleDispatchEnv).action = true := by
  decide

/-- C5 (amended): whenever the media handed to the dispatcher is a data
URL, the decode-and-write to a temp file happens unconditionally, for both
transports; the command-line transport then passes the temp-file path as
the media argument, while the HTTP transport sends the original data URL
in the request body (leaving the written file unused). -/
theorem c5_materialization (msg : OpenClawMessage) (useCLI : Bool) (env : DispatchEnv)
    (m : String) (hm : msg.media = some m) (hd : strStartsWith m "data:" = true) :
    (sendViaOpenClaw msg useCLI env).tempWrites
        = [(tempFileName env.now m, stripDataUrlPrefix m)] ∧
    (useCLI = true →
      (sendViaOpenClaw msg useCLI env).action
        = .cli ("openclaw message send --action send --channel \"" ++ msg.channel
            ++ "\" --message \"" ++ msg.message ++ "\" --media \""
            ++ tempFileName env.now m ++ "\"")) ∧
    (useCLI = false →
      (sendViaOpenClaw msg useCLI env).action
        = .http (jsOrStr env.gatewayUrl "http://localhost:18789" ++ "/message")
            (match env.gatewayToken with
              | none => none
              | some t => if t = "" then none else some ("Bearer " ++ t))
            msg (some m)) := by
  cases useCLI <;> simp [sendViaOpenClaw, hm, hd, jsStr]

/-- C5 (witness): on a concrete data URL both transports write the decoded
temp file; the CLI command carries the temp path and the HTTP body carries
the original data URL. -/
theorem c5_materialization_witness :
    (sendViaOpenClaw (OpenClawMessage.mk "#g" "hi" (some "data:image/jpeg;base64,QUJD"))
        true sampleDispatchEnv).tempWrites = [("/tmp/ono-selfie-0.jpeg", "QUJD")] ∧
    (sendViaOpenClaw (OpenClawMessage.mk "#g" "hi" (some "data:image/jpeg;base64,QUJD"))
        false sampleDispatchEnv).tempWrites = [("/tmp/ono-selfie-0.jpeg", "QUJD")] ∧
    (sendViaOpenClaw (OpenClawMessage.mk "#g" "hi" (some "data:image/jpeg;base64,QUJD"))
        true sampleDispatchEnv).action
      = .cli "openclaw message send --action send --channel \"#g\" --message \"hi\" --media \"/tmp/ono-selfie-0.jpeg\"" ∧
    (sendViaOpenClaw (OpenClawMessage.mk "#g" "hi" (some "data:image/jpeg;base64,QUJD"))
        false sampleDispatchEnv).action
      = .http "http://localhost:18789/message" none
          (OpenClawMessage.mk "#g" "hi" (some "data:image/jpeg;base64,QUJD"))
          (some "data:image/jpeg;base64,QUJD") := by
  refine ⟨?_, ?_, ?_, ?_⟩
  · rw [(c5_materialization (OpenClawMessage.mk "#g" "hi" (some "data:image/jpeg;base64,QUJD"))
      true sampleDispatchEnv "data:image/jpeg;base64,QUJD" rfl (by decide)).1]
    decide
  · rw [(c5_materialization (OpenClawMessage.mk "#g" "hi" (some "data:image/jpeg;base64,QUJD"))
      false sampleDispatchEnv "data:image/jpeg;base64,QUJD" rfl (by decide)).1]
    decide
  · rw [(c5_materialization (OpenClawMessage.mk "#g" "hi" (some "data:image/jpeg;base64,QUJD"))
      true sampleDispatchEnv "data:image/jpeg;base64,QUJD" rfl (by decide)).2.1 rfl]
    decide
  · rw [(c5_materialization (OpenClawMessage.mk "#g" "hi" (some "data:image/jpeg;base64,QUJD"))
      false sampleDispatchEnv "data:image/jpeg;base64,QUJD" rfl (by decide)).2.2 rfl]
    decide

/-- C9: a byte sequence encoded to base64 and then decoded by the
Materializer's decode-and-write step is recovered exactly. -/
theorem c9_base64_roundtrip (bytes : List Nat) (h : ∀ b ∈ bytes, b < 256) :
    materializeBytes (b64Encode bytes) = some bytes :=
  b64Decode_b64Encode bytes h

/-- C9 (witness): the bytes 79, 110, 111 round-trip through the base64
encode and the Materializer's decode. -/
theorem c9_base64_roundtrip_witness :
    (∀ b ∈ [79, 110, 111], b < 256) ∧
    materializeBytes (b64Encode [79, 110, 111]) = some [79, 110, 111] :=
  ⟨by decide, c9_base64_roundtrip [79, 110, 111] (by decide)⟩

end Clawono
